import Mathlib

/-!
# Verification of the wharfkit/msigs client against its specification

A shallow embedding of the repository's TypeScript source: the pure pagination
helper `getPaginationInfo` and the stateful `MsigsClient` (limit discovery,
limit validation, request building).  JavaScript numbers appearing in the code
are integer-valued throughout the client, so they are modelled as `Int`;
`Math.floor` / `Math.ceil` over real division are modelled as the floor and
ceiling of exact rational division.  The injected HTTP transport is modelled by
the outcome the status endpoint would produce (`Except String ServiceStatus`),
and each operation returns the request it would hand to the transport, or the
locally raised error, together with the number of status calls issued.
-/

namespace Msigs

/-- Embeds the `PaginationInfo` interface from the source.  `nextOffset` and
`previousOffset` are optional fields (`undefined` is `none`). -/
structure PaginationInfo where
  currentPage : Int
  pageSize : Int
  totalResults : Int
  totalPages : Int
  hasMore : Bool
  hasPrevious : Bool
  nextOffset : Option Int
  previousOffset : Option Int
  deriving DecidableEq

/-- Embeds the source function `getPaginationInfo(offset, limit, total, more)`:
`currentPage = Math.floor(offset / limit) + 1`, `totalPages = Math.ceil(total / limit)`,
`hasMore = more`, `hasPrevious = offset > 0`,
`nextOffset = hasMore ? offset + limit : undefined`,
`previousOffset = hasPrevious ? Math.max(0, offset - limit) : undefined`.
`Math.floor`/`Math.ceil` of the real quotient are the floor/ceiling of the
exact rational quotient. -/
def getPaginationInfo (offset limit total : Int) (more : Bool) : PaginationInfo :=
  let currentPage : Int := ⌊(offset : ℚ) / (limit : ℚ)⌋ + 1
  let totalPages : Int := ⌈(total : ℚ) / (limit : ℚ)⌉
  let hasMore := more
  let hasPrevious : Bool := offset > 0
  { currentPage := currentPage
    pageSize := limit
    totalResults := total
    totalPages := totalPages
    hasMore := hasMore
    hasPrevious := hasPrevious
    nextOffset := if hasMore then some (offset + limit) else none
    previousOffset := if hasPrevious then some (max 0 (offset - limit)) else none }

/-! ## Client data model

Option bags of the operations, the client options, the status response fields
the client consults, and the client's mutable state. -/

structure GetProposalOptions where
  globalseq : Option Nat := none
  version_history : Option Bool := none
  deriving DecidableEq

structure GetProposalHistoryOptions where
  status : Option String := none
  limit : Option Int := none
  offset : Option Int := none
  deriving DecidableEq

structure GetProposalsOptions where
  proposer : Option String := none
  status : Option String := none
  limit : Option Int := none
  offset : Option Int := none
  deriving DecidableEq

structure GetActiveOptions where
  limit : Option Int := none
  offset : Option Int := none
  sort_by : Option String := none
  deriving DecidableEq

structure GetApprovalsOptions where
  globalseq : Option Nat := none
  limit : Option Int := none
  offset : Option Int := none
  deriving DecidableEq

structure GetActivityOptions where
  limit : Option Int := none
  offset : Option Int := none
  action_type : Option String := none
  deriving DecidableEq

structure GetApproverProposalsOptions where
  status : Option String := none
  include_approved : Option Bool := none
  limit : Option Int := none
  offset : Option Int := none
  deriving DecidableEq

structure SearchProposalsOptions where
  status : Option String := none
  limit : Option Int := none
  offset : Option Int := none
  deriving DecidableEq

structure MsigsClientOptions where
  maxProposalLimit : Option Int := none
  maxApprovalLimit : Option Int := none
  deriving DecidableEq

/-- The two fields of the status response the client consults (`ServiceStatus`
in src/types.ts declares further optional chain-sync fields, none of which the
client ever reads). -/
structure ServiceStatus where
  max_proposal_results : Option Int := none
  max_approval_results : Option Int := none
  deriving DecidableEq

/-- The mutable fields of a `MsigsClient` instance. -/
structure ClientState where
  maxProposalLimit : Option Int
  maxApprovalLimit : Option Int
  limitsInitialized : Bool
  deriving DecidableEq

/-- Embeds the `MsigsClient` constructor: copies the optionally supplied limits,
`limitsInitialized = false`. -/
def MsigsClient.new (options : Option MsigsClientOptions) : ClientState :=
  { maxProposalLimit := match options with | some o => o.maxProposalLimit | none => none
    maxApprovalLimit := match options with | some o => o.maxApprovalLimit | none => none
    limitsInitialized := false }

/-- JavaScript `x || d` on an integer-valued `number | undefined`: `undefined`
and `0` are falsy and yield the default. -/
def jsOr (x : Option Int) (d : Int) : Int :=
  match x with
  | none => d
  | some v => if v = 0 then d else v

/-- Embeds the private limit-discovery method of `MsigsClient` (source lines
78-106).  `statusResult` is the outcome the transport would give to the
status call the method issues; the returned `Nat` counts the status calls
issued (0 or 1).  The source's `try`/`catch` around the status call is the
`Except.error` branch: a transport failure is absorbed into the hardcoded
defaults, never re-raised. -/
def initLimits (s : ClientState) (statusResult : Except String ServiceStatus) :
    ClientState × Nat :=
  if s.limitsInitialized then
    (s, 0)
  else if s.maxProposalLimit.isSome && s.maxApprovalLimit.isSome then
    ({ s with limitsInitialized := true }, 0)
  else
    match statusResult with
    | Except.ok status =>
        ({ maxProposalLimit :=
              match s.maxProposalLimit with
              | none => some (jsOr status.max_proposal_results 20)
              | some v => some v
           maxApprovalLimit :=
              match s.maxApprovalLimit with
              | none => some (jsOr status.max_approval_results 100)
              | some v => some v
           limitsInitialized := true }, 1)
    | Except.error _ =>
        ({ maxProposalLimit :=
              match s.maxProposalLimit with
              | none => some 20
              | some v => some v
           maxApprovalLimit :=
              match s.maxApprovalLimit with
              | none => some 100
              | some v => some v
           limitsInitialized := true }, 1)

/-- Embeds `getMaxProposalLimit()`: runs discovery, then reads the field (the
source's non-null assertion on the field corresponds to the field being `some`
after discovery on every constructor-reachable state).  Returns the new state,
the status calls issued, and the field value. -/
def getMaxProposalLimit (s : ClientState) (r : Except String ServiceStatus) :
    ClientState × Nat × Option Int :=
  ((initLimits s r).1, (initLimits s r).2, (initLimits s r).1.maxProposalLimit)

/-- Embeds `getMaxApprovalLimit()`, as `getMaxProposalLimit`. -/
def getMaxApprovalLimit (s : ClientState) (r : Except String ServiceStatus) :
    ClientState × Nat × Option Int :=
  ((initLimits s r).1, (initLimits s r).2, (initLimits s r).1.maxApprovalLimit)

/-- A sequence of discovery invocations, each with the status outcome the
transport would return at that point; accumulates the number of status calls
issued in total. -/
def runDiscoveries (s : ClientState) (rs : List (Except String ServiceStatus)) :
    ClientState × Nat :=
  match rs with
  | [] => (s, 0)
  | r :: rest =>
      let t := runDiscoveries (initLimits s r).1 rest
      (t.1, (initLimits s r).2 + t.2)

/-! ## Request building -/

/-- Wire values placed into the request parameter mapping (`Name.from`,
`Int32.from`, `UInt64.from`, plain strings and booleans of the source). -/
inductive ParamValue where
  | nameVal (v : String)
  | strVal (v : String)
  | int32Val (v : Int)
  | uint64Val (v : Nat)
  | boolVal (v : Bool)
  deriving DecidableEq

/-- A request handed to the injected transport: endpoint path and the parameter
mapping, in insertion order. -/
structure Request where
  path : String
  params : List (String × ParamValue)
  deriving DecidableEq

/-- The `Error` thrown by local limit validation. -/
structure JsError where
  message : String
  deriving DecidableEq

/-- `params[key] = v`, done only when the optional value was supplied. -/
def addParam (params : List (String × ParamValue)) (key : String)
    (v : Option ParamValue) : List (String × ParamValue) :=
  match v with
  | some pv => params ++ [(key, pv)]
  | none => params

/-- JavaScript `a > b` where `b : number | undefined`: a comparison against
`undefined` is false. -/
def jsGt (a : Int) (b : Option Int) : Bool :=
  match b with
  | some v => a > v
  | none => false

/-- Template-literal interpolation of a `number | undefined`. -/
def numStr (x : Option Int) : String :=
  match x with
  | some v => toString v
  | none => "undefined"

/-- The block repeated in every limit-accepting operation (e.g. source lines
152-158): when a limit was supplied, run discovery first, throw when the limit
exceeds the ceiling read by `ceilingOf` from the discovered state, otherwise
append the limit as a wire integer. -/
def applyLimit (s : ClientState) (r : Except String ServiceStatus)
    (ceilingOf : ClientState → Option Int) (params : List (String × ParamValue))
    (limit : Option Int) :
    ClientState × Nat × Except JsError (List (String × ParamValue)) :=
  match limit with
  | none => (s, 0, Except.ok params)
  | some l =>
      let s2 := (initLimits s r).1
      let calls := (initLimits s r).2
      if jsGt l (ceilingOf s2) then
        (s2, calls,
          Except.error { message := "Limit cannot exceed " ++ numStr (ceilingOf s2) })
      else
        (s2, calls, Except.ok (params ++ [("limit", ParamValue.int32Val l)]))

/-- Embeds `get_proposal`. -/
def get_proposal (s : ClientState) (proposer proposalName : String)
    (options : Option GetProposalOptions) :
    ClientState × Nat × Except JsError Request :=
  let params : List (String × ParamValue) :=
    [("proposer", ParamValue.nameVal proposer),
     ("proposal_name", ParamValue.nameVal proposalName)]
  let params := addParam params "globalseq"
    (Option.map ParamValue.uint64Val (Option.bind options (fun o => o.globalseq)))
  let params := addParam params "version_history"
    (Option.map ParamValue.boolVal (Option.bind options (fun o => o.version_history)))
  (s, 0, Except.ok { path := "/v1/proposals/get_proposal", params := params })

/-- Embeds `get_proposal_history`. -/
def get_proposal_history (s : ClientState) (r : Except String ServiceStatus)
    (proposer proposalName : String) (options : Option GetProposalHistoryOptions) :
    ClientState × Nat × Except JsError Request :=
  let params : List (String × ParamValue) :=
    [("proposer", ParamValue.nameVal proposer),
     ("proposal_name", ParamValue.nameVal proposalName)]
  let params := addParam params "status"
    (Option.map ParamValue.strVal (Option.bind options (fun o => o.status)))
  match applyLimit s r (fun c => c.maxProposalLimit) params
      (Option.bind options (fun o => o.limit)) with
  | (s2, calls, Except.error e) => (s2, calls, Except.error e)
  | (s2, calls, Except.ok ps) =>
      let ps := addParam ps "offset"
        (Option.map ParamValue.int32Val (Option.bind options (fun o => o.offset)))
      (s2, calls, Except.ok { path := "/v1/proposals/get_proposal_history", params := ps })

/-- Embeds `get_proposals`. -/
def get_proposals (s : ClientState) (r : Except String ServiceStatus)
    (options : Option GetProposalsOptions) :
    ClientState × Nat × Except JsError Request :=
  let params : List (String × ParamValue) := []
  let params := addParam params "proposer"
    (Option.map ParamValue.nameVal (Option.bind options (fun o => o.proposer)))
  let params := addParam params "status"
    (Option.map ParamValue.strVal (Option.bind options (fun o => o.status)))
  match applyLimit s r (fun c => c.maxProposalLimit) params
      (Option.bind options (fun o => o.limit)) with
  | (s2, calls, Except.error e) => (s2, calls, Except.error e)
  | (s2, calls, Except.ok ps) =>
      let ps := addParam ps "offset"
        (Option.map ParamValue.int32Val (Option.bind options (fun o => o.offset)))
      (s2, calls, Except.ok { path := "/v1/proposals/get_proposals", params := ps })

/-- Embeds `get_active`. -/
def get_active (s : ClientState) (r : Except String ServiceStatus)
    (options : Option GetActiveOptions) :
    ClientState × Nat × Except JsError Request :=
  let params : List (String × ParamValue) := []
  match applyLimit s r (fun c => c.maxProposalLimit) params
      (Option.bind options (fun o => o.limit)) with
  | (s2, calls, Except.error e) => (s2, calls, Except.error e)
  | (s2, calls, Except.ok ps) =>
      let ps := addParam ps "offset"
        (Option.map ParamValue.int32Val (Option.bind options (fun o => o.offset)))
      let ps := addParam ps "sort_by"
        (Option.map ParamValue.strVal (Option.bind options (fun o => o.sort_by)))
      (s2, calls, Except.ok { path := "/v1/proposals/get_active", params := ps })

/-- Embeds `get_approvals` (the one operation validating against the approval
ceiling). -/
def get_approvals (s : ClientState) (r : Except String ServiceStatus)
    (proposer proposalName : String) (options : Option GetApprovalsOptions) :
    ClientState × Nat × Except JsError Request :=
  let params : List (String × ParamValue) :=
    [("proposer", ParamValue.nameVal proposer),
     ("proposal_name", ParamValue.nameVal proposalName)]
  let params := addParam params "globalseq"
    (Option.map ParamValue.uint64Val (Option.bind options (fun o => o.globalseq)))
  match applyLimit s r (fun c => c.maxApprovalLimit) params
      (Option.bind options (fun o => o.limit)) with
  | (s2, calls, Except.error e) => (s2, calls, Except.error e)
  | (s2, calls, Except.ok ps) =>
      let ps := addParam ps "offset"
        (Option.map ParamValue.int32Val (Option.bind options (fun o => o.offset)))
      (s2, calls, Except.ok { path := "/v1/proposals/get_approvals", params := ps })

/-- Embeds `get_activity`. -/
def get_activity (s : ClientState) (r : Except String ServiceStatus)
    (account : String) (options : Option GetActivityOptions) :
    ClientState × Nat × Except JsError Request :=
  let params : List (String × ParamValue) := [("account", ParamValue.nameVal account)]
  match applyLimit s r (fun c => c.maxProposalLimit) params
      (Option.bind options (fun o => o.limit)) with
  | (s2, calls, Except.error e) => (s2, calls, Except.error e)
  | (s2, calls, Except.ok ps) =>
      let ps := addParam ps "offset"
        (Option.map ParamValue.int32Val (Option.bind options (fun o => o.offset)))
      let ps := addParam ps "action_type"
        (Option.map ParamValue.strVal (Option.bind options (fun o => o.action_type)))
      (s2, calls, Except.ok { path := "/v1/proposals/get_activity", params := ps })

/-- Embeds `get_approver_proposals`. -/
def get_approver_proposals (s : ClientState) (r : Except String ServiceStatus)
    (approver : String) (options : Option GetApproverProposalsOptions) :
    ClientState × Nat × Except JsError Request :=
  let params : List (String × ParamValue) := [("approver", ParamValue.nameVal approver)]
  let params := addParam params "status"
    (Option.map ParamValue.strVal (Option.bind options (fun o => o.status)))
  let params := addParam params "include_approved"
    (Option.map ParamValue.boolVal (Option.bind options (fun o => o.include_approved)))
  match applyLimit s r (fun c => c.maxProposalLimit) params
      (Option.bind options (fun o => o.limit)) with
  | (s2, calls, Except.error e) => (s2, calls, Except.error e)
  | (s2, calls, Except.ok ps) =>
      let ps := addParam ps "offset"
        (Option.map ParamValue.int32Val (Option.bind options (fun o => o.offset)))
      (s2, calls, Except.ok { path := "/v1/proposals/get_approver_proposals", params := ps })

/-- Embeds `search_proposals`. -/
def search_proposals (s : ClientState) (r : Except String ServiceStatus)
    (query : String) (options : Option SearchProposalsOptions) :
    ClientState × Nat × Except JsError Request :=
  let params : List (String × ParamValue) := [("query", ParamValue.strVal query)]
  let params := addParam params "status"
    (Option.map ParamValue.strVal (Option.bind options (fun o => o.status)))
  match applyLimit s r (fun c => c.maxProposalLimit) params
      (Option.bind options (fun o => o.limit)) with
  | (s2, calls, Except.error e) => (s2, calls, Except.error e)
  | (s2, calls, Except.ok ps) =>
      let ps := addParam ps "offset"
        (Option.map ParamValue.int32Val (Option.bind options (fun o => o.offset)))
      (s2, calls, Except.ok { path := "/v1/proposals/search_proposals", params := ps })

/-- Embeds `get_status`: always sends an empty parameter mapping to the status
endpoint.  (The request returned here is itself the status call; the `Nat`,
as in every operation, counts only discovery-issued status calls.) -/
def get_status (s : ClientState) : ClientState × Nat × Except JsError Request :=
  (s, 0, Except.ok { path := "/v1/proposals/get_status", params := [] })

/-- Options of the debug/diagnostics operation: only an optional specific
version sequence number. -/
structure DebugProposalOptions where
  globalseq : Option Nat := none
  deriving DecidableEq

/-- Modelled from the spec: the debug/diagnostics operation for a proposal's
status computation is missing from src/ (only its test callers, which call it
`debug_proposal`, and its response type `DebugProposalResponse` are present).
Per the spec's operations table it takes the required proposer and proposal
name, an optional specific version sequence number, accepts no limit, and
calls a fixed debug path under the `/v1/proposals/` prefix. -/
def debug_proposal (s : ClientState) (proposer proposalName : String)
    (options : Option DebugProposalOptions) :
    ClientState × Nat × Except JsError Request :=
  let params : List (String × ParamValue) :=
    [("proposer", ParamValue.nameVal proposer),
     ("proposal_name", ParamValue.nameVal proposalName)]
  let params := addParam params "globalseq"
    (Option.map ParamValue.uint64Val (Option.bind options (fun o => o.globalseq)))
  (s, 0, Except.ok { path := "/v1/proposals/" ++ "debug_proposal", params := params })

/-- Whether an operation result reached the point of handing a request for its
own endpoint to the transport (false when local validation threw first). -/
def requestSent (x : ClientState × Nat × Except JsError Request) : Bool :=
  match x.2.2 with
  | Except.ok _ => true
  | Except.error _ => false

end Msigs

/-- **C1.** For every input `(offset, limit, total, more)` with `limit > 0`,
`getPaginationInfo` returns `currentPage = floor(offset/limit) + 1` (stated by the
characterizing inequalities `limit * (currentPage - 1) ≤ offset < limit * currentPage`),
`totalPages = ceil(total/limit)` (stated by `limit * (totalPages - 1) < total ≤
limit * totalPages`), `hasMore = more`, `hasPrevious` true iff `offset > 0`,
`nextOffset` present iff `more` and then `offset + limit`, `previousOffset` present
iff `offset > 0` and then `max 0 (offset - limit)`; in particular `total = 0`
yields `totalPages = 0`. -/
theorem Msigs.getPaginationInfo_spec (offset limit total : Int) (more : Bool)
    (h : 0 < limit) :
    (limit * ((Msigs.getPaginationInfo offset limit total more).currentPage - 1) ≤ offset ∧
      offset < limit * (Msigs.getPaginationInfo offset limit total more).currentPage) ∧
    (limit * ((Msigs.getPaginationInfo offset limit total more).totalPages - 1) < total ∧
      total ≤ limit * (Msigs.getPaginationInfo offset limit total more).totalPages) ∧
    (Msigs.getPaginationInfo offset limit total more).hasMore = more ∧
    ((Msigs.getPaginationInfo offset limit total more).hasPrevious = true ↔ 0 < offset) ∧
    (Msigs.getPaginationInfo offset limit total more).nextOffset =
      (if more then some (offset + limit) else none) ∧
    (Msigs.getPaginationInfo offset limit total more).previousOffset =
      (if 0 < offset then some (max 0 (offset - limit)) else none) ∧
    (Msigs.getPaginationInfo offset limit 0 more).totalPages = 0 := by
  have hq : (0 : ℚ) < (limit : ℚ) := by exact_mod_cast h
  refine ⟨⟨?_, ?_⟩, ⟨?_, ?_⟩, rfl, ?_, rfl, ?_, ?_⟩
  · -- limit * (floor(offset/limit) + 1 - 1) ≤ offset
    have hfl : (⌊(offset : ℚ) / (limit : ℚ)⌋ : ℚ) ≤ (offset : ℚ) / (limit : ℚ) :=
      Int.floor_le _
    have h1 := (le_div_iff₀ hq).mp hfl
    have h2 : ⌊(offset : ℚ) / (limit : ℚ)⌋ * limit ≤ offset := by exact_mod_cast h1
    simp only [Msigs.getPaginationInfo, add_sub_cancel_right]
    linarith
  · -- offset < limit * (floor(offset/limit) + 1)
    have hfl : (offset : ℚ) / (limit : ℚ) < (⌊(offset : ℚ) / (limit : ℚ)⌋ : ℚ) + 1 :=
      Int.lt_floor_add_one _
    have h1 := (div_lt_iff₀ hq).mp hfl
    have h2 : offset < (⌊(offset : ℚ) / (limit : ℚ)⌋ + 1) * limit := by exact_mod_cast h1
    simp only [Msigs.getPaginationInfo]
    linarith
  · -- limit * (ceil(total/limit) - 1) < total
    have hcl : (⌈(total : ℚ) / (limit : ℚ)⌉ : ℚ) - 1 < (total : ℚ) / (limit : ℚ) := by
      have := Int.ceil_lt_add_one ((total : ℚ) / (limit : ℚ))
      linarith
    have h1 := (lt_div_iff₀ hq).mp hcl
    have h2 : (⌈(total : ℚ) / (limit : ℚ)⌉ - 1) * limit < total := by exact_mod_cast h1
    simp only [Msigs.getPaginationInfo]
    linarith
  · -- total ≤ limit * ceil(total/limit)
    have hcl : (total : ℚ) / (limit : ℚ) ≤ (⌈(total : ℚ) / (limit : ℚ)⌉ : ℚ) :=
      Int.le_ceil _
    have h1 := (div_le_iff₀ hq).mp hcl
    have h2 : total ≤ ⌈(total : ℚ) / (limit : ℚ)⌉ * limit := by exact_mod_cast h1
    simp only [Msigs.getPaginationInfo]
    linarith
  · -- hasPrevious ↔ offset > 0
    simp [Msigs.getPaginationInfo]
  · -- previousOffset shape
    simp [Msigs.getPaginationInfo]
  · -- total = 0 gives totalPages = 0
    simp [Msigs.getPaginationInfo]

/-- Witness for C1 at `(offset, limit, total, more) = (10, 10, 50, true)`. -/
theorem Msigs.getPaginationInfo_spec_witness :
    (10 * ((Msigs.getPaginationInfo 10 10 50 true).currentPage - 1) ≤ 10 ∧
      10 < 10 * (Msigs.getPaginationInfo 10 10 50 true).currentPage) ∧
    (10 * ((Msigs.getPaginationInfo 10 10 50 true).totalPages - 1) < 50 ∧
      50 ≤ 10 * (Msigs.getPaginationInfo 10 10 50 true).totalPages) ∧
    (Msigs.getPaginationInfo 10 10 50 true).hasMore = true ∧
    ((Msigs.getPaginationInfo 10 10 50 true).hasPrevious = true ↔ (0 : Int) < 10) ∧
    (Msigs.getPaginationInfo 10 10 50 true).nextOffset =
      (if true then some (10 + 10) else none) ∧
    (Msigs.getPaginationInfo 10 10 50 true).previousOffset =
      (if (0 : Int) < 10 then some (max 0 (10 - 10)) else none) ∧
    (Msigs.getPaginationInfo 10 10 0 true).totalPages = 0 :=
  Msigs.getPaginationInfo_spec 10 10 50 true (by decide)

/-! ## Discovery lemmas -/

/-- After any discovery invocation the client is marked initialized. -/
theorem Msigs.initLimits_initialized (s : Msigs.ClientState)
    (r : Except String Msigs.ServiceStatus) :
    (Msigs.initLimits s r).1.limitsInitialized = true := by
  unfold Msigs.initLimits
  split
  · next h => simpa using h
  · split
    · rfl
    · cases r <;> rfl

/-- Discovery on an initialized client is a no-op issuing no status call. -/
theorem Msigs.initLimits_of_initialized (s : Msigs.ClientState)
    (r : Except String Msigs.ServiceStatus) (h : s.limitsInitialized = true) :
    Msigs.initLimits s r = (s, 0) := by
  simp [Msigs.initLimits, h]

/-- Discovery issues at most one status call. -/
theorem Msigs.initLimits_calls_le_one (s : Msigs.ClientState)
    (r : Except String Msigs.ServiceStatus) :
    (Msigs.initLimits s r).2 ≤ 1 := by
  unfold Msigs.initLimits
  split
  · simp
  · split
    · simp
    · cases r <;> simp

/-- Any sequence of discovery invocations on an initialized client is a no-op
issuing no status call. -/
theorem Msigs.runDiscoveries_of_initialized (s : Msigs.ClientState)
    (rs : List (Except String Msigs.ServiceStatus)) (h : s.limitsInitialized = true) :
    Msigs.runDiscoveries s rs = (s, 0) := by
  induction rs with
  | nil => rfl
  | cons r rest ih =>
      simp [Msigs.runDiscoveries, Msigs.initLimits_of_initialized s r h, ih]

/-- When both limits are already known, discovery keeps them and issues no
status call. -/
theorem Msigs.initLimits_of_both_some (s : Msigs.ClientState)
    (r : Except String Msigs.ServiceStatus) (h1 : s.maxProposalLimit.isSome)
    (h2 : s.maxApprovalLimit.isSome) :
    (Msigs.initLimits s r).1.maxProposalLimit = s.maxProposalLimit ∧
    (Msigs.initLimits s r).1.maxApprovalLimit = s.maxApprovalLimit ∧
    (Msigs.initLimits s r).2 = 0 := by
  unfold Msigs.initLimits
  split
  · simp
  · split
    · simp
    · next hb => simp [h1, h2] at hb

/-- When both limits are already known, no sequence of discovery invocations
ever issues a status call. -/
theorem Msigs.runDiscoveries_calls_zero_of_some (s : Msigs.ClientState)
    (rs : List (Except String Msigs.ServiceStatus)) (h1 : s.maxProposalLimit.isSome)
    (h2 : s.maxApprovalLimit.isSome) :
    (Msigs.runDiscoveries s rs).2 = 0 := by
  induction rs generalizing s with
  | nil => rfl
  | cons r rest ih =>
      have h := Msigs.initLimits_of_both_some s r h1 h2
      have hrest := ih (Msigs.initLimits s r).1
        (by rw [h.1]; exact h1) (by rw [h.2.1]; exact h2)
      simp [Msigs.runDiscoveries, h.2.2, hrest]

/-- **C4.** If the status call issued during limit discovery fails with a
transport error of any kind, discovery does not propagate the error:
`getMaxProposalLimit()` resolves to 20 and `getMaxApprovalLimit()` resolves to
100 for any limit not supplied at construction.  (No error can be raised to
the caller: the embedding of the source's `try`/`catch` is total.) -/
theorem Msigs.discovery_defaults_on_failure (s : Msigs.ClientState) (msg : String)
    (hInit : s.limitsInitialized = false) :
    (s.maxProposalLimit = none →
      (Msigs.getMaxProposalLimit s (Except.error msg)).2.2 = some 20) ∧
    (s.maxApprovalLimit = none →
      (Msigs.getMaxApprovalLimit s (Except.error msg)).2.2 = some 100) := by
  constructor
  · intro hp
    simp [Msigs.getMaxProposalLimit, Msigs.initLimits, hInit, hp]
  · intro ha
    simp [Msigs.getMaxApprovalLimit, Msigs.initLimits, hInit, ha]

/-- Witness for C4: a freshly constructed client with no supplied limits, whose
status call fails. -/
theorem Msigs.discovery_defaults_on_failure_witness :
    (Msigs.getMaxProposalLimit (Msigs.MsigsClient.new none)
      (Except.error "Network error")).2.2 = some 20 ∧
    (Msigs.getMaxApprovalLimit (Msigs.MsigsClient.new none)
      (Except.error "Network error")).2.2 = some 100 :=
  ⟨(Msigs.discovery_defaults_on_failure (Msigs.MsigsClient.new none)
      "Network error" rfl).1 rfl,
   (Msigs.discovery_defaults_on_failure (Msigs.MsigsClient.new none)
      "Network error" rfl).2 rfl⟩

/-- **C5.** Limit discovery is idempotent and at-most-once: a discovery
invocation issues at most one status call; after it has completed, any
sequence of further discovery invocations is a no-op issuing no status call
(so at most one status call is issued in total), and a repeated
`getMaxProposalLimit()` / `getMaxApprovalLimit()` leaves the state untouched,
issues no status call, and returns the identical cached value. -/
theorem Msigs.discovery_idempotent (s : Msigs.ClientState)
    (r r2 : Except String Msigs.ServiceStatus)
    (rs : List (Except String Msigs.ServiceStatus)) :
    (Msigs.initLimits s r).2 ≤ 1 ∧
    Msigs.runDiscoveries (Msigs.initLimits s r).1 rs = ((Msigs.initLimits s r).1, 0) ∧
    (Msigs.initLimits s r).2 + (Msigs.runDiscoveries (Msigs.initLimits s r).1 rs).2 ≤ 1 ∧
    Msigs.getMaxProposalLimit (Msigs.initLimits s r).1 r2 =
      ((Msigs.initLimits s r).1, 0, (Msigs.initLimits s r).1.maxProposalLimit) ∧
    Msigs.getMaxApprovalLimit (Msigs.initLimits s r).1 r2 =
      ((Msigs.initLimits s r).1, 0, (Msigs.initLimits s r).1.maxApprovalLimit) := by
  have hinit := Msigs.initLimits_initialized s r
  have hrun := Msigs.runDiscoveries_of_initialized (Msigs.initLimits s r).1 rs hinit
  have hno := Msigs.initLimits_of_initialized (Msigs.initLimits s r).1 r2 hinit
  refine ⟨Msigs.initLimits_calls_le_one s r, hrun, ?_, ?_, ?_⟩
  · rw [hrun]
    simpa using Msigs.initLimits_calls_le_one s r
  · simp [Msigs.getMaxProposalLimit, hno]
  · simp [Msigs.getMaxApprovalLimit, hno]

/-- **C6.** If both `maxProposalLimit` and `maxApprovalLimit` are supplied at
construction, no status call is ever issued by discovery (over any sequence of
discovery invocations), and `getMaxProposalLimit()` / `getMaxApprovalLimit()`
issue no status call and resolve to exactly the supplied values. -/
theorem Msigs.constructed_limits_no_status_call (p a : Int)
    (r : Except String Msigs.ServiceStatus)
    (rs : List (Except String Msigs.ServiceStatus)) :
    let s := Msigs.MsigsClient.new
      (some { maxProposalLimit := some p, maxApprovalLimit := some a })
    (Msigs.runDiscoveries s rs).2 = 0 ∧
    (Msigs.getMaxProposalLimit s r).2.1 = 0 ∧
    (Msigs.getMaxProposalLimit s r).2.2 = some p ∧
    (Msigs.getMaxApprovalLimit s r).2.1 = 0 ∧
    (Msigs.getMaxApprovalLimit s r).2.2 = some a := by
  intro s
  have h1 : s.maxProposalLimit.isSome := rfl
  have h2 : s.maxApprovalLimit.isSome := rfl
  have h := Msigs.initLimits_of_both_some s r h1 h2
  refine ⟨Msigs.runDiscoveries_calls_zero_of_some s rs h1 h2, ?_, ?_, ?_, ?_⟩
  · simpa [Msigs.getMaxProposalLimit] using h.2.2
  · simpa [Msigs.getMaxProposalLimit] using h.1
  · simpa [Msigs.getMaxApprovalLimit] using h.2.2
  · simpa [Msigs.getMaxApprovalLimit] using h.2.1

/-- **C9.** If discovery's status call succeeds but the response carries
`max_proposal_results = 0` (or `max_approval_results = 0`), the client treats
the value as unset (the defaulting `||` is a falsiness test) and resolves the
corresponding limit to the default 20 (respectively 100), not to 0. -/
theorem Msigs.zero_results_fall_back_to_defaults (s : Msigs.ClientState)
    (x y : Option Int) (hInit : s.limitsInitialized = false)
    (hp : s.maxProposalLimit = none) (ha : s.maxApprovalLimit = none) :
    (Msigs.initLimits s
      (Except.ok { max_proposal_results := some 0, max_approval_results := y })).1.maxProposalLimit
        = some 20 ∧
    (Msigs.initLimits s
      (Except.ok { max_proposal_results := x, max_approval_results := some 0 })).1.maxApprovalLimit
        = some 100 := by
  constructor
  · simp [Msigs.initLimits, hInit, hp, ha, Msigs.jsOr]
  · simp [Msigs.initLimits, hInit, hp, ha, Msigs.jsOr]

/-- Witness for C9: a fresh client whose status call reports both ceilings
as 0. -/
theorem Msigs.zero_results_fall_back_to_defaults_witness :
    (Msigs.initLimits (Msigs.MsigsClient.new none)
      (Except.ok { max_proposal_results := some 0,
                   max_approval_results := some 0 })).1.maxProposalLimit = some 20 ∧
    (Msigs.initLimits (Msigs.MsigsClient.new none)
      (Except.ok { max_proposal_results := some 0,
                   max_approval_results := some 0 })).1.maxApprovalLimit = some 100 :=
  Msigs.zero_results_fall_back_to_defaults (Msigs.MsigsClient.new none)
    (some 0) (some 0) rfl rfl rfl

/-! ## Request-building lemmas -/

/-- A supplied limit exceeding the resolved ceiling makes the shared limit
block throw `Limit cannot exceed <ceiling>` (after the discovery it runs). -/
theorem Msigs.applyLimit_error (s : Msigs.ClientState)
    (r : Except String Msigs.ServiceStatus)
    (ceilingOf : Msigs.ClientState → Option Int)
    (params : List (String × Msigs.ParamValue)) (l c : Int)
    (hc : ceilingOf (Msigs.initLimits s r).1 = some c) (hl : c < l) :
    Msigs.applyLimit s r ceilingOf params (some l) =
      ((Msigs.initLimits s r).1, (Msigs.initLimits s r).2,
       Except.error { message := "Limit cannot exceed " ++ toString c }) := by
  simp [Msigs.applyLimit, Msigs.jsGt, Msigs.numStr, hc, hl]

/-- A supplied limit within the resolved ceiling is appended to the parameter
mapping as a wire integer. -/
theorem Msigs.applyLimit_ok (s : Msigs.ClientState)
    (r : Except String Msigs.ServiceStatus)
    (ceilingOf : Msigs.ClientState → Option Int)
    (params : List (String × Msigs.ParamValue)) (l c : Int)
    (hc : ceilingOf (Msigs.initLimits s r).1 = some c) (hl : l ≤ c) :
    Msigs.applyLimit s r ceilingOf params (some l) =
      ((Msigs.initLimits s r).1, (Msigs.initLimits s r).2,
       Except.ok (params ++ [("limit", Msigs.ParamValue.int32Val l)])) := by
  simp [Msigs.applyLimit, Msigs.jsGt, hc, not_lt.mpr hl]

/-- **C7.** For every operation, when the caller supplies no optional filters,
the parameter mapping sent to the transport contains exactly the operation's
required identifiers and nothing else — no `status`, `limit`, `offset` or other
optional keys, and nothing sent as null or empty values (absent optionals are
simply not in the mapping).  (The debug operation is modelled from the spec;
see `debug_proposal`.) -/
theorem Msigs.omitted_options_exact_params (s : Msigs.ClientState)
    (r : Except String Msigs.ServiceStatus)
    (proposer proposalName account approver query : String) :
    Msigs.get_proposal s proposer proposalName none =
      (s, 0, Except.ok
        { path := "/v1/proposals/get_proposal",
          params := [("proposer", Msigs.ParamValue.nameVal proposer),
                     ("proposal_name", Msigs.ParamValue.nameVal proposalName)] }) ∧
    Msigs.get_proposal_history s r proposer proposalName none =
      (s, 0, Except.ok
        { path := "/v1/proposals/get_proposal_history",
          params := [("proposer", Msigs.ParamValue.nameVal proposer),
                     ("proposal_name", Msigs.ParamValue.nameVal proposalName)] }) ∧
    Msigs.get_proposals s r none =
      (s, 0, Except.ok
        { path := "/v1/proposals/get_proposals", params := [] }) ∧
    Msigs.get_active s r none =
      (s, 0, Except.ok
        { path := "/v1/proposals/get_active", params := [] }) ∧
    Msigs.get_approvals s r proposer proposalName none =
      (s, 0, Except.ok
        { path := "/v1/proposals/get_approvals",
          params := [("proposer", Msigs.ParamValue.nameVal proposer),
                     ("proposal_name", Msigs.ParamValue.nameVal proposalName)] }) ∧
    Msigs.get_activity s r account none =
      (s, 0, Except.ok
        { path := "/v1/proposals/get_activity",
          params := [("account", Msigs.ParamValue.nameVal account)] }) ∧
    Msigs.get_approver_proposals s r approver none =
      (s, 0, Except.ok
        { path := "/v1/proposals/get_approver_proposals",
          params := [("approver", Msigs.ParamValue.nameVal approver)] }) ∧
    Msigs.search_proposals s r query none =
      (s, 0, Except.ok
        { path := "/v1/proposals/search_proposals",
          params := [("query", Msigs.ParamValue.strVal query)] }) ∧
    Msigs.get_status s =
      (s, 0, Except.ok
        { path := "/v1/proposals/get_status", params := [] }) ∧
    Msigs.debug_proposal s proposer proposalName none =
      (s, 0, Except.ok
        { path := "/v1/proposals/" ++ "debug_proposal",
          params := [("proposer", Msigs.ParamValue.nameVal proposer),
                     ("proposal_name", Msigs.ParamValue.nameVal proposalName)] }) :=
  ⟨rfl, rfl, rfl, rfl, rfl, rfl, rfl, rfl, rfl, rfl⟩

/-- **C8.** The client provides a diagnostic/debug operation for a proposal's
status computation, taking required proposer and proposal name and an optional
specific version sequence number, calling a fixed debug endpoint path under the
`/v1/proposals/` prefix. -/
theorem Msigs.debug_endpoint (s : Msigs.ClientState)
    (proposer proposalName : String) (g : Nat) :
    Msigs.debug_proposal s proposer proposalName none =
      (s, 0, Except.ok
        { path := "/v1/proposals/" ++ "debug_proposal",
          params := [("proposer", Msigs.ParamValue.nameVal proposer),
                     ("proposal_name", Msigs.ParamValue.nameVal proposalName)] }) ∧
    Msigs.debug_proposal s proposer proposalName (some { globalseq := some g }) =
      (s, 0, Except.ok
        { path := "/v1/proposals/" ++ "debug_proposal",
          params := [("proposer", Msigs.ParamValue.nameVal proposer),
                     ("proposal_name", Msigs.ParamValue.nameVal proposalName),
                     ("globalseq", Msigs.ParamValue.uint64Val g)] }) :=
  ⟨rfl, rfl⟩

/-- **C2.** For every operation that accepts a limit option, a caller-supplied
limit strictly greater than the resolved applicable ceiling (the proposal
ceiling for all operations but `get_approvals`, the approval ceiling for
`get_approvals`) makes the operation fail with an error whose message is
"Limit cannot exceed " followed by the numeric ceiling, and no request is sent
to the transport for that operation's endpoint (the result is the thrown
error, not a request). -/
theorem Msigs.limit_validation_error (s : Msigs.ClientState)
    (r : Except String Msigs.ServiceStatus)
    (proposer proposalName account approver query : String)
    (st : Option String) (off : Option Int) (g : Option Nat)
    (srt act : Option String) (inc : Option Bool) (prq : Option String)
    (l v w : Int)
    (hp : (Msigs.initLimits s r).1.maxProposalLimit = some v)
    (ha : (Msigs.initLimits s r).1.maxApprovalLimit = some w) :
    (v < l →
      Msigs.get_proposal_history s r proposer proposalName
          (some { status := st, limit := some l, offset := off }) =
        ((Msigs.initLimits s r).1, (Msigs.initLimits s r).2,
         Except.error { message := "Limit cannot exceed " ++ toString v })) ∧
    (v < l →
      Msigs.get_proposals s r
          (some { proposer := prq, status := st, limit := some l, offset := off }) =
        ((Msigs.initLimits s r).1, (Msigs.initLimits s r).2,
         Except.error { message := "Limit cannot exceed " ++ toString v })) ∧
    (v < l →
      Msigs.get_active s r
          (some { limit := some l, offset := off, sort_by := srt }) =
        ((Msigs.initLimits s r).1, (Msigs.initLimits s r).2,
         Except.error { message := "Limit cannot exceed " ++ toString v })) ∧
    (w < l →
      Msigs.get_approvals s r proposer proposalName
          (some { globalseq := g, limit := some l, offset := off }) =
        ((Msigs.initLimits s r).1, (Msigs.initLimits s r).2,
         Except.error { message := "Limit cannot exceed " ++ toString w })) ∧
    (v < l →
      Msigs.get_activity s r account
          (some { limit := some l, offset := off, action_type := act }) =
        ((Msigs.initLimits s r).1, (Msigs.initLimits s r).2,
         Except.error { message := "Limit cannot exceed " ++ toString v })) ∧
    (v < l →
      Msigs.get_approver_proposals s r approver
          (some { status := st, include_approved := inc, limit := some l,
                  offset := off }) =
        ((Msigs.initLimits s r).1, (Msigs.initLimits s r).2,
         Except.error { message := "Limit cannot exceed " ++ toString v })) ∧
    (v < l →
      Msigs.search_proposals s r query
          (some { status := st, limit := some l, offset := off }) =
        ((Msigs.initLimits s r).1, (Msigs.initLimits s r).2,
         Except.error { message := "Limit cannot exceed " ++ toString v })) := by
  refine ⟨?_, ?_, ?_, ?_, ?_, ?_, ?_⟩
  · intro hv
    simp only [Msigs.get_proposal_history, Option.some_bind]
    rw [Msigs.applyLimit_error s r _ _ l v hp hv]
  · intro hv
    simp only [Msigs.get_proposals, Option.some_bind]
    rw [Msigs.applyLimit_error s r _ _ l v hp hv]
  · intro hv
    simp only [Msigs.get_active, Option.some_bind]
    rw [Msigs.applyLimit_error s r _ _ l v hp hv]
  · intro hw
    simp only [Msigs.get_approvals, Option.some_bind]
    rw [Msigs.applyLimit_error s r _ _ l w ha hw]
  · intro hv
    simp only [Msigs.get_activity, Option.some_bind]
    rw [Msigs.applyLimit_error s r _ _ l v hp hv]
  · intro hv
    simp only [Msigs.get_approver_proposals, Option.some_bind]
    rw [Msigs.applyLimit_error s r _ _ l v hp hv]
  · intro hv
    simp only [Msigs.search_proposals, Option.some_bind]
    rw [Msigs.applyLimit_error s r _ _ l v hp hv]

/-- Witness for C2: fresh client, failing status call (so the resolved
ceilings are the defaults 20 / 100).  The six proposal-ceiling operations are
exercised at limit 50 — beyond the proposal ceiling 20 yet within the approval
ceiling 100 — and `get_approvals` at limit 200, beyond its approval ceiling. -/
theorem Msigs.limit_validation_error_witness :
    Msigs.get_proposal_history (Msigs.MsigsClient.new none) (Except.error "boom")
        "alice" "upgrade" (some { status := none, limit := some 50, offset := none }) =
      ((Msigs.initLimits (Msigs.MsigsClient.new none) (Except.error "boom")).1,
       (Msigs.initLimits (Msigs.MsigsClient.new none) (Except.error "boom")).2,
       Except.error { message := "Limit cannot exceed " ++ toString (20 : Int) }) ∧
    Msigs.get_proposals (Msigs.MsigsClient.new none) (Except.error "boom")
        (some { proposer := none, status := none, limit := some 50, offset := none }) =
      ((Msigs.initLimits (Msigs.MsigsClient.new none) (Except.error "boom")).1,
       (Msigs.initLimits (Msigs.MsigsClient.new none) (Except.error "boom")).2,
       Except.error { message := "Limit cannot exceed " ++ toString (20 : Int) }) ∧
    Msigs.get_active (Msigs.MsigsClient.new none) (Except.error "boom")
        (some { limit := some 50, offset := none, sort_by := none }) =
      ((Msigs.initLimits (Msigs.MsigsClient.new none) (Except.error "boom")).1,
       (Msigs.initLimits (Msigs.MsigsClient.new none) (Except.error "boom")).2,
       Except.error { message := "Limit cannot exceed " ++ toString (20 : Int) }) ∧
    Msigs.get_activity (Msigs.MsigsClient.new none) (Except.error "boom")
        "alice" (some { limit := some 50, offset := none, action_type := none }) =
      ((Msigs.initLimits (Msigs.MsigsClient.new none) (Except.error "boom")).1,
       (Msigs.initLimits (Msigs.MsigsClient.new none) (Except.error "boom")).2,
       Except.error { message := "Limit cannot exceed " ++ toString (20 : Int) }) ∧
    Msigs.get_approver_proposals (Msigs.MsigsClient.new none) (Except.error "boom")
        "bob" (some { status := none, include_approved := none, limit := some 50,
                      offset := none }) =
      ((Msigs.initLimits (Msigs.MsigsClient.new none) (Except.error "boom")).1,
       (Msigs.initLimits (Msigs.MsigsClient.new none) (Except.error "boom")).2,
       Except.error { message := "Limit cannot exceed " ++ toString (20 : Int) }) ∧
    Msigs.search_proposals (Msigs.MsigsClient.new none) (Except.error "boom")
        "upg" (some { status := none, limit := some 50, offset := none }) =
      ((Msigs.initLimits (Msigs.MsigsClient.new none) (Except.error "boom")).1,
       (Msigs.initLimits (Msigs.MsigsClient.new none) (Except.error "boom")).2,
       Except.error { message := "Limit cannot exceed " ++ toString (20 : Int) }) ∧
    Msigs.get_approvals (Msigs.MsigsClient.new none) (Except.error "boom")
        "alice" "upgrade" (some { globalseq := none, limit := some 200, offset := none }) =
      ((Msigs.initLimits (Msigs.MsigsClient.new none) (Except.error "boom")).1,
       (Msigs.initLimits (Msigs.MsigsClient.new none) (Except.error "boom")).2,
       Except.error { message := "Limit cannot exceed " ++ toString (100 : Int) }) :=
  ⟨(Msigs.limit_validation_error (Msigs.MsigsClient.new none) (Except.error "boom")
      "alice" "upgrade" "alice" "bob" "upg" none none none none none none none
      50 20 100 rfl rfl).1 (by decide),
   (Msigs.limit_validation_error (Msigs.MsigsClient.new none) (Except.error "boom")
      "alice" "upgrade" "alice" "bob" "upg" none none none none none none none
      50 20 100 rfl rfl).2.1 (by decide),
   (Msigs.limit_validation_error (Msigs.MsigsClient.new none) (Except.error "boom")
      "alice" "upgrade" "alice" "bob" "upg" none none none none none none none
      50 20 100 rfl rfl).2.2.1 (by decide),
   (Msigs.limit_validation_error (Msigs.MsigsClient.new none) (Except.error "boom")
      "alice" "upgrade" "alice" "bob" "upg" none none none none none none none
      50 20 100 rfl rfl).2.2.2.2.1 (by decide),
   (Msigs.limit_validation_error (Msigs.MsigsClient.new none) (Except.error "boom")
      "alice" "upgrade" "alice" "bob" "upg" none none none none none none none
      50 20 100 rfl rfl).2.2.2.2.2.1 (by decide),
   (Msigs.limit_validation_error (Msigs.MsigsClient.new none) (Except.error "boom")
      "alice" "upgrade" "alice" "bob" "upg" none none none none none none none
      50 20 100 rfl rfl).2.2.2.2.2.2 (by decide),
   (Msigs.limit_validation_error (Msigs.MsigsClient.new none) (Except.error "boom")
      "alice" "upgrade" "alice" "bob" "upg" none none none none none none none
      200 20 100 rfl rfl).2.2.2.1 (by decide)⟩

/-- **C3.** The limit ceiling used for validation is the approval ceiling
(`maxApprovalLimit`) for the approval-timeline operation `get_approvals`, and
the proposal ceiling (`maxProposalLimit`) for every other limit-accepting
operation: with resolved ceilings `p` (proposal) and `a` (approval), a request
is handed to the transport exactly when the supplied limit is within the
operation's applicable ceiling. -/
theorem Msigs.ceiling_selection (s : Msigs.ClientState)
    (r : Except String Msigs.ServiceStatus)
    (proposer proposalName account approver query : String)
    (st : Option String) (off : Option Int) (g : Option Nat)
    (srt act : Option String) (inc : Option Bool) (prq : Option String)
    (l p a : Int)
    (hp : (Msigs.initLimits s r).1.maxProposalLimit = some p)
    (ha : (Msigs.initLimits s r).1.maxApprovalLimit = some a) :
    (Msigs.requestSent (Msigs.get_approvals s r proposer proposalName
        (some { globalseq := g, limit := some l, offset := off })) = true ↔ l ≤ a) ∧
    (Msigs.requestSent (Msigs.get_proposal_history s r proposer proposalName
        (some { status := st, limit := some l, offset := off })) = true ↔ l ≤ p) ∧
    (Msigs.requestSent (Msigs.get_proposals s r
        (some { proposer := prq, status := st, limit := some l, offset := off })) = true ↔
      l ≤ p) ∧
    (Msigs.requestSent (Msigs.get_active s r
        (some { limit := some l, offset := off, sort_by := srt })) = true ↔ l ≤ p) ∧
    (Msigs.requestSent (Msigs.get_activity s r account
        (some { limit := some l, offset := off, action_type := act })) = true ↔ l ≤ p) ∧
    (Msigs.requestSent (Msigs.get_approver_proposals s r approver
        (some { status := st, include_approved := inc, limit := some l,
                offset := off })) = true ↔ l ≤ p) ∧
    (Msigs.requestSent (Msigs.search_proposals s r query
        (some { status := st, limit := some l, offset := off })) = true ↔ l ≤ p) := by
  refine ⟨?_, ?_, ?_, ?_, ?_, ?_, ?_⟩
  · rcases le_or_lt l a with h | h
    · simp only [Msigs.get_approvals, Option.some_bind]
      rw [Msigs.applyLimit_ok s r _ _ l a ha h]
      simp [Msigs.requestSent, h]
    · simp only [Msigs.get_approvals, Option.some_bind]
      rw [Msigs.applyLimit_error s r _ _ l a ha h]
      simp [Msigs.requestSent, not_le.mpr h]
  · rcases le_or_lt l p with h | h
    · simp only [Msigs.get_proposal_history, Option.some_bind]
      rw [Msigs.applyLimit_ok s r _ _ l p hp h]
      simp [Msigs.requestSent, h]
    · simp only [Msigs.get_proposal_history, Option.some_bind]
      rw [Msigs.applyLimit_error s r _ _ l p hp h]
      simp [Msigs.requestSent, not_le.mpr h]
  · rcases le_or_lt l p with h | h
    · simp only [Msigs.get_proposals, Option.some_bind]
      rw [Msigs.applyLimit_ok s r _ _ l p hp h]
      simp [Msigs.requestSent, h]
    · simp only [Msigs.get_proposals, Option.some_bind]
      rw [Msigs.applyLimit_error s r _ _ l p hp h]
      simp [Msigs.requestSent, not_le.mpr h]
  · rcases le_or_lt l p with h | h
    · simp only [Msigs.get_active, Option.some_bind]
      rw [Msigs.applyLimit_ok s r _ _ l p hp h]
      simp [Msigs.requestSent, h]
    · simp only [Msigs.get_active, Option.some_bind]
      rw [Msigs.applyLimit_error s r _ _ l p hp h]
      simp [Msigs.requestSent, not_le.mpr h]
  · rcases le_or_lt l p with h | h
    · simp only [Msigs.get_activity, Option.some_bind]
      rw [Msigs.applyLimit_ok s r _ _ l p hp h]
      simp [Msigs.requestSent, h]
    · simp only [Msigs.get_activity, Option.some_bind]
      rw [Msigs.applyLimit_error s r _ _ l p hp h]
      simp [Msigs.requestSent, not_le.mpr h]
  · rcases le_or_lt l p with h | h
    · simp only [Msigs.get_approver_proposals, Option.some_bind]
      rw [Msigs.applyLimit_ok s r _ _ l p hp h]
      simp [Msigs.requestSent, h]
    · simp only [Msigs.get_approver_proposals, Option.some_bind]
      rw [Msigs.applyLimit_error s r _ _ l p hp h]
      simp [Msigs.requestSent, not_le.mpr h]
  · rcases le_or_lt l p with h | h
    · simp only [Msigs.search_proposals, Option.some_bind]
      rw [Msigs.applyLimit_ok s r _ _ l p hp h]
      simp [Msigs.requestSent, h]
    · simp only [Msigs.search_proposals, Option.some_bind]
      rw [Msigs.applyLimit_error s r _ _ l p hp h]
      simp [Msigs.requestSent, not_le.mpr h]

/-- Witness for C3: fresh client, failing status call (resolved ceilings
20 / 100), requested limit 50: within the approval ceiling, beyond the
proposal ceiling. -/
theorem Msigs.ceiling_selection_witness :
    (Msigs.requestSent (Msigs.get_approvals (Msigs.MsigsClient.new none)
        (Except.error "boom") "alice" "upgrade"
        (some { globalseq := none, limit := some 50, offset := none })) = true ↔
      (50 : Int) ≤ 100) ∧
    (Msigs.requestSent (Msigs.get_proposal_history (Msigs.MsigsClient.new none)
        (Except.error "boom") "alice" "upgrade"
        (some { status := none, limit := some 50, offset := none })) = true ↔
      (50 : Int) ≤ 20) ∧
    (Msigs.requestSent (Msigs.get_proposals (Msigs.MsigsClient.new none)
        (Except.error "boom")
        (some { proposer := none, status := none, limit := some 50, offset := none })) =
        true ↔ (50 : Int) ≤ 20) ∧
    (Msigs.requestSent (Msigs.get_active (Msigs.MsigsClient.new none)
        (Except.error "boom")
        (some { limit := some 50, offset := none, sort_by := none })) = true ↔
      (50 : Int) ≤ 20) ∧
    (Msigs.requestSent (Msigs.get_activity (Msigs.MsigsClient.new none)
        (Except.error "boom") "alice"
        (some { limit := some 50, offset := none, action_type := none })) = true ↔
      (50 : Int) ≤ 20) ∧
    (Msigs.requestSent (Msigs.get_approver_proposals (Msigs.MsigsClient.new none)
        (Except.error "boom") "bob"
        (some { status := none, include_approved := none, limit := some 50,
                offset := none })) = true ↔ (50 : Int) ≤ 20) ∧
    (Msigs.requestSent (Msigs.search_proposals (Msigs.MsigsClient.new none)
        (Except.error "boom") "upg"
        (some { status := none, limit := some 50, offset := none })) = true ↔
      (50 : Int) ≤ 20) :=
  Msigs.ceiling_selection (Msigs.MsigsClient.new none) (Except.error "boom")
    "alice" "upgrade" "alice" "bob" "upg" none none none none none none none
    50 20 100 rfl rfl

/-- **C10.** The limit-validation comparison is strict: for every
limit-accepting operation, a caller-supplied limit exactly equal to the
resolved applicable ceiling does not raise the local validation error, and is
included in the request's parameter mapping as a wire integer. -/
theorem Msigs.limit_equal_ceiling_ok (s : Msigs.ClientState)
    (r : Except String Msigs.ServiceStatus)
    (proposer proposalName account approver query : String) (p a : Int)
    (hp : (Msigs.initLimits s r).1.maxProposalLimit = some p)
    (ha : (Msigs.initLimits s r).1.maxApprovalLimit = some a) :
    Msigs.get_proposal_history s r proposer proposalName
        (some { status := none, limit := some p, offset := none }) =
      ((Msigs.initLimits s r).1, (Msigs.initLimits s r).2, Except.ok
        { path := "/v1/proposals/get_proposal_history",
          params := [("proposer", Msigs.ParamValue.nameVal proposer),
                     ("proposal_name", Msigs.ParamValue.nameVal proposalName),
                     ("limit", Msigs.ParamValue.int32Val p)] }) ∧
    Msigs.get_proposals s r
        (some { proposer := none, status := none, limit := some p, offset := none }) =
      ((Msigs.initLimits s r).1, (Msigs.initLimits s r).2, Except.ok
        { path := "/v1/proposals/get_proposals",
          params := [("limit", Msigs.ParamValue.int32Val p)] }) ∧
    Msigs.get_active s r
        (some { limit := some p, offset := none, sort_by := none }) =
      ((Msigs.initLimits s r).1, (Msigs.initLimits s r).2, Except.ok
        { path := "/v1/proposals/get_active",
          params := [("limit", Msigs.ParamValue.int32Val p)] }) ∧
    Msigs.get_approvals s r proposer proposalName
        (some { globalseq := none, limit := some a, offset := none }) =
      ((Msigs.initLimits s r).1, (Msigs.initLimits s r).2, Except.ok
        { path := "/v1/proposals/get_approvals",
          params := [("proposer", Msigs.ParamValue.nameVal proposer),
                     ("proposal_name", Msigs.ParamValue.nameVal proposalName),
                     ("limit", Msigs.ParamValue.int32Val a)] }) ∧
    Msigs.get_activity s r account
        (some { limit := some p, offset := none, action_type := none }) =
      ((Msigs.initLimits s r).1, (Msigs.initLimits s r).2, Except.ok
        { path := "/v1/proposals/get_activity",
          params := [("account", Msigs.ParamValue.nameVal account),
                     ("limit", Msigs.ParamValue.int32Val p)] }) ∧
    Msigs.get_approver_proposals s r approver
        (some { status := none, include_approved := none, limit := some p,
                offset := none }) =
      ((Msigs.initLimits s r).1, (Msigs.initLimits s r).2, Except.ok
        { path := "/v1/proposals/get_approver_proposals",
          params := [("approver", Msigs.ParamValue.nameVal approver),
                     ("limit", Msigs.ParamValue.int32Val p)] }) ∧
    Msigs.search_proposals s r query
        (some { status := none, limit := some p, offset := none }) =
      ((Msigs.initLimits s r).1, (Msigs.initLimits s r).2, Except.ok
        { path := "/v1/proposals/search_proposals",
          params := [("query", Msigs.ParamValue.strVal query),
                     ("limit", Msigs.ParamValue.int32Val p)] }) := by
  refine ⟨?_, ?_, ?_, ?_, ?_, ?_, ?_⟩
  · simp only [Msigs.get_proposal_history, Option.some_bind]
    rw [Msigs.applyLimit_ok s r _ _ p p hp le_rfl]
    simp [Msigs.addParam]
  · simp only [Msigs.get_proposals, Option.some_bind]
    rw [Msigs.applyLimit_ok s r _ _ p p hp le_rfl]
    simp [Msigs.addParam]
  · simp only [Msigs.get_active, Option.some_bind]
    rw [Msigs.applyLimit_ok s r _ _ p p hp le_rfl]
    simp [Msigs.addParam]
  · simp only [Msigs.get_approvals, Option.some_bind]
    rw [Msigs.applyLimit_ok s r _ _ a a ha le_rfl]
    simp [Msigs.addParam]
  · simp only [Msigs.get_activity, Option.some_bind]
    rw [Msigs.applyLimit_ok s r _ _ p p hp le_rfl]
    simp [Msigs.addParam]
  · simp only [Msigs.get_approver_proposals, Option.some_bind]
    rw [Msigs.applyLimit_ok s r _ _ p p hp le_rfl]
    simp [Msigs.addParam]
  · simp only [Msigs.search_proposals, Option.some_bind]
    rw [Msigs.applyLimit_ok s r _ _ p p hp le_rfl]
    simp [Msigs.addParam]

/-- Witness for C10: fresh client, failing status call (resolved ceilings
20 / 100), limits requested exactly at the ceilings. -/
theorem Msigs.limit_equal_ceiling_ok_witness :
    Msigs.get_proposal_history (Msigs.MsigsClient.new none) (Except.error "boom")
        "alice" "upgrade" (some { status := none, limit := some 20, offset := none }) =
      ((Msigs.initLimits (Msigs.MsigsClient.new none) (Except.error "boom")).1,
       (Msigs.initLimits (Msigs.MsigsClient.new none) (Except.error "boom")).2,
       Except.ok
        { path := "/v1/proposals/get_proposal_history",
          params := [("proposer", Msigs.ParamValue.nameVal "alice"),
                     ("proposal_name", Msigs.ParamValue.nameVal "upgrade"),
                     ("limit", Msigs.ParamValue.int32Val 20)] }) ∧
    Msigs.get_proposals (Msigs.MsigsClient.new none) (Except.error "boom")
        (some { proposer := none, status := none, limit := some 20, offset := none }) =
      ((Msigs.initLimits (Msigs.MsigsClient.new none) (Except.error "boom")).1,
       (Msigs.initLimits (Msigs.MsigsClient.new none) (Except.error "boom")).2,
       Except.ok
        { path := "/v1/proposals/get_proposals",
          params := [("limit", Msigs.ParamValue.int32Val 20)] }) ∧
    Msigs.get_active (Msigs.MsigsClient.new none) (Except.error "boom")
        (some { limit := some 20, offset := none, sort_by := none }) =
      ((Msigs.initLimits (Msigs.MsigsClient.new none) (Except.error "boom")).1,
       (Msigs.initLimits (Msigs.MsigsClient.new none) (Except.error "boom")).2,
       Except.ok
        { path := "/v1/proposals/get_active",
          params := [("limit", Msigs.ParamValue.int32Val 20)] }) ∧
    Msigs.get_approvals (Msigs.MsigsClient.new none) (Except.error "boom")
        "alice" "upgrade" (some { globalseq := none, limit := some 100, offset := none }) =
      ((Msigs.initLimits (Msigs.MsigsClient.new none) (Except.error "boom")).1,
       (Msigs.initLimits (Msigs.MsigsClient.new none) (Except.error "boom")).2,
       Except.ok
        { path := "/v1/proposals/get_approvals",
          params := [("proposer", Msigs.ParamValue.nameVal "alice"),
                     ("proposal_name", Msigs.ParamValue.nameVal "upgrade"),
                     ("limit", Msigs.ParamValue.int32Val 100)] }) ∧
    Msigs.get_activity (Msigs.MsigsClient.new none) (Except.error "boom")
        "alice" (some { limit := some 20, offset := none, action_type := none }) =
      ((Msigs.initLimits (Msigs.MsigsClient.new none) (Except.error "boom")).1,
       (Msigs.initLimits (Msigs.MsigsClient.new none) (Except.error "boom")).2,
       Except.ok
        { path := "/v1/proposals/get_activity",
          params := [("account", Msigs.ParamValue.nameVal "alice"),
                     ("limit", Msigs.ParamValue.int32Val 20)] }) ∧
    Msigs.get_approver_proposals (Msigs.MsigsClient.new none) (Except.error "boom")
        "bob" (some { status := none, include_approved := none, limit := some 20,
                      offset := none }) =
      ((Msigs.initLimits (Msigs.MsigsClient.new none) (Except.error "boom")).1,
       (Msigs.initLimits (Msigs.MsigsClient.new none) (Except.error "boom")).2,
       Except.ok
        { path := "/v1/proposals/get_approver_proposals",
          params := [("approver", Msigs.ParamValue.nameVal "bob"),
                     ("limit", Msigs.ParamValue.int32Val 20)] }) ∧
    Msigs.search_proposals (Msigs.MsigsClient.new none) (Except.error "boom")
        "upg" (some { status := none, limit := some 20, offset := none }) =
      ((Msigs.initLimits (Msigs.MsigsClient.new none) (Except.error "boom")).1,
       (Msigs.initLimits (Msigs.MsigsClient.new none) (Except.error "boom")).2,
       Except.ok
        { path := "/v1/proposals/search_proposals",
          params := [("query", Msigs.ParamValue.strVal "upg"),
                     ("limit", Msigs.ParamValue.int32Val 20)] }) :=
  Msigs.limit_equal_ceiling_ok (Msigs.MsigsClient.new none) (Except.error "boom")
    "alice" "upgrade" "alice" "bob" "upg" 20 100 rfl rfl
